import Mathlib

/-!
Verification development for the TrainFlow backend (enrollment lifecycle and
renewal approval engine).

The development shallowly embeds:
* the string enums of `backend/app/core/enums.py`;
* the demo seed `backend/app/seeds/demo_seed.py` (pure state passing over a
  record of table contents; Python dicts as association lists; attribute
  access on an enum class as a partial lookup, since the seed references
  enum members that do not exist);
* the EnrollmentTracker / RenewalWorkflowEngine operations of the spec
  (`evaluate`, `isRenewalCandidate`, `completeRenewal`, `openRequest`,
  `decideStep`, store lookups).  These operations are not implemented in the
  backend source — the enrollment/renewal endpoints are placeholders — so
  they are modelled from the spec, and each such definition is marked
  `Modelled from the spec:` in its doc comment.

Dates are modelled as integers counting days (every date arithmetic in the
seed uses whole-day `timedelta`s); ids, allocated by `uuid4` in the source,
are modelled as naturals handed out by a counter.
-/

namespace TrainFlow

/-! ## Enums — `backend/app/core/enums.py` -/

/-- `UserRole` from `enums.py`: employee, foreman, manager, training_officer,
administrator. -/
inductive UserRole
  | employee
  | foreman
  | manager
  | training_officer
  | administrator
deriving DecidableEq, Repr

/-- The `str` value of a `UserRole` member. -/
def UserRole.value : UserRole → String
  | .employee => "employee"
  | .foreman => "foreman"
  | .manager => "manager"
  | .training_officer => "training_officer"
  | .administrator => "administrator"

/-- `EnrollmentStatus` from `enums.py`: active, completed, expired, pending. -/
inductive EnrollmentStatus
  | active
  | completed
  | expired
  | pending
deriving DecidableEq, Repr

/-- The `str` value of an `EnrollmentStatus` member. -/
def EnrollmentStatus.value : EnrollmentStatus → String
  | .active => "active"
  | .completed => "completed"
  | .expired => "expired"
  | .pending => "pending"

/-- `RenewalStatus` from `enums.py`: pending, foreman_approved,
manager_approved, completed, rejected. -/
inductive RenewalStatus
  | pending
  | foreman_approved
  | manager_approved
  | completed
  | rejected
deriving DecidableEq, Repr

/-- The `str` value of a `RenewalStatus` member. -/
def RenewalStatus.value : RenewalStatus → String
  | .pending => "pending"
  | .foreman_approved => "foreman_approved"
  | .manager_approved => "manager_approved"
  | .completed => "completed"
  | .rejected => "rejected"

/-- `TaskStatus` from `enums.py`: pending, in_progress, completed, blocked. -/
inductive TaskStatus
  | pending
  | in_progress
  | completed
  | blocked
deriving DecidableEq, Repr

/-- Attribute access `RenewalStatus.<NAME>` on the Python enum class:
`none` models the `AttributeError` raised for a missing member. -/
def renewalStatusMember : String → Option RenewalStatus
  | "PENDING" => some .pending
  | "FOREMAN_APPROVED" => some .foreman_approved
  | "MANAGER_APPROVED" => some .manager_approved
  | "COMPLETED" => some .completed
  | "REJECTED" => some .rejected
  | _ => none

/-- Attribute access `TaskStatus.<NAME>` on the Python enum class. -/
def taskStatusMember : String → Option TaskStatus
  | "PENDING" => some .pending
  | "IN_PROGRESS" => some .in_progress
  | "COMPLETED" => some .completed
  | "BLOCKED" => some .blocked
  | _ => none

/-- A Python exception escaping `run_demo_seed`. -/
inductive PyError
  | attributeError (enumName memberName : String)
deriving DecidableEq, Repr

/-- The SQLAlchemy column default for `Enrollment.status`
(`models.py`, `default=EnrollmentStatus.ACTIVE`). -/
def enrollmentStatusDefault : EnrollmentStatus := .active

/-- The server default for `renewal_requests.status` in migration
`002_core_domain.py` (`server_default='pending'`). -/
def renewalRequestStatusServerDefault : String := "pending"

/-! ## Python dicts — the seed's `summary` dict as an association list -/

/-- A Python value stored in the seed's summary dict. -/
inductive PyVal
  | vNat (n : Nat)
  | vStr (s : String)
deriving DecidableEq, Repr

/-- A Python dict with string keys, insertion ordered. -/
abbrev PyDict := List (String × PyVal)

/-- `d[k] = v`: replace the entry if the key is present, else append. -/
def dictSet (d : PyDict) (k : String) (v : PyVal) : PyDict :=
  if d.any (fun p => p.1 = k) then
    d.map (fun p => if p.1 = k then (k, v) else p)
  else
    d ++ [(k, v)]

/-- `d[k]` as an option. -/
def dictLookup (d : PyDict) (k : String) : Option PyVal :=
  (d.find? (fun p => p.1 = k)).map (fun p => p.2)

/-- The dict-display splat `{..base, **other}`: entries of `other` are written
over `base` one by one, in order, so keys of `other` win. -/
def dictMergeStar (base other : PyDict) : PyDict :=
  other.foldl (fun d p => dictSet d p.1 p.2) base

/-! ## Table rows — `backend/app/db/models.py`
Only the columns the claims touch are carried; `uuid4` primary keys are
naturals, `DateTime` values are integer day counts. -/

/-- A `tenants` row. -/
structure TenantRow where
  tid : Nat
  name : String
  slug : Option String
  isActive : Bool
deriving DecidableEq, Repr

/-- A `departments` row. -/
structure DepartmentRow where
  did : Nat
  tenantId : Nat
  name : String
  code : String
deriving DecidableEq, Repr

/-- A `users` row. -/
structure UserRow where
  uid : Nat
  tenantId : Nat
  email : String
  role : UserRole
  departmentId : Option Nat
deriving DecidableEq, Repr

/-- A `courses` row. -/
structure CourseRow where
  cid : Nat
  tenantId : Nat
  name : String
  category : String
  validityDays : Nat
  isMandatory : Bool
  departmentId : Option Nat
deriving DecidableEq, Repr

/-- An `enrollments` row. -/
structure EnrollmentRow where
  eid : Nat
  tenantId : Nat
  userId : Nat
  courseId : Nat
  status : EnrollmentStatus
  startDate : Int
  completionDate : Option Int
  expiryDate : Option Int
deriving DecidableEq, Repr

/-- A `renewal_requests` row. -/
structure RenewalRow where
  rid : Nat
  tenantId : Nat
  userId : Nat
  enrollmentId : Nat
  status : RenewalStatus
  approverId : Option Nat
  requestedDate : Int
  decidedDate : Option Int
  reason : String
deriving DecidableEq, Repr

/-- A `workflow_steps` row (no code in the backend ever inserts one). -/
structure StepRow where
  sid : Nat
  tenantId : Nat
  renewalId : Nat
  stepOrder : Nat
  actorRole : String
  status : Option String
deriving DecidableEq, Repr

/-- The committed database state.  The tables the claims never inspect row by
row (progression tasks, employee tasks, notifications, KPI snapshots) are
carried as row counts only; the seed aborts before reaching them anyway. -/
structure DB where
  nextId : Nat
  tenants : List TenantRow
  departments : List DepartmentRow
  users : List UserRow
  courses : List CourseRow
  enrollments : List EnrollmentRow
  renewals : List RenewalRow
  workflowSteps : List StepRow
  progressionTaskCount : Nat
  employeeTaskCount : Nat
  notificationCount : Nat
  kpiCount : Nat
deriving DecidableEq, Repr

/-! ## The demo seed — `backend/app/seeds/demo_seed.py` -/

/-- `departments_data` of the seed: (code, name). -/
def demoDepartmentsData : List (String × String) :=
  [("ERTMD", "Emergency Response Training & Maintenance Department"),
   ("TMSD", "Technical Maintenance & Support Department"),
   ("JTMD", "Job Training & Development Department")]

/-- `users_data` of the seed, reduced to (email, role, department index). -/
def demoUsersData : List (String × UserRole × Nat) :=
  [("admin@democorp.local", .administrator, 0),
   ("training.officer@democorp.local", .training_officer, 1),
   ("manager1@democorp.local", .manager, 1),
   ("manager2@democorp.local", .manager, 2),
   ("foreman1@democorp.local", .foreman, 1),
   ("foreman2@democorp.local", .foreman, 2),
   ("foreman3@democorp.local", .foreman, 1),
   ("employee1@democorp.local", .employee, 1),
   ("employee2@democorp.local", .employee, 1),
   ("employee3@democorp.local", .employee, 2),
   ("employee4@democorp.local", .employee, 2),
   ("employee5@democorp.local", .employee, 1),
   ("employee6@democorp.local", .employee, 1),
   ("employee7@democorp.local", .employee, 2),
   ("employee8@democorp.local", .employee, 2)]

/-- `courses_data` of the seed: (name, category, validity_days, is_mandatory,
department index). -/
def demoCoursesData : List (String × String × Nat × Bool × Nat) :=
  [("Basic Safety Orientation", "safety", 365, true, 0),
   ("Electrical Safety Level 2", "safety", 365, true, 0),
   ("First Aid & CPR", "safety", 730, true, 1),
   ("SCADA Fundamentals", "technical", 730, false, 1),
   ("Cyber Security Awareness", "security", 365, true, 0),
   ("Confined Space Entry", "safety", 365, false, 0),
   ("Emergency Response Leadership", "management", 730, false, 1)]

/-- The (status, start, completion, expiry) an enrollment gets in the seed's
"varied expiry scenarios" branch for employee `empIdx` and course
`courseIdx` (demo_seed.py lines 143-173), relative to `today`. -/
structure EnrPlan where
  status : EnrollmentStatus
  startDate : Int
  completionDate : Option Int
  expiryDate : Option Int
deriving DecidableEq, Repr

/-- The seed's per-(employee, course) enrollment scenario. -/
def demoEnrollmentPlan (today : Int) (empIdx courseIdx : Nat) : EnrPlan :=
  if empIdx % 5 == 0 && courseIdx == 0 then
    ⟨.completed, today - 400, some (today - 50), some (today - 10)⟩
  else if empIdx % 5 == 1 && courseIdx == 1 then
    ⟨.completed, today - 350, some (today - 100), some (today + 7)⟩
  else if empIdx % 5 == 2 && courseIdx == 2 then
    ⟨.completed, today - 340, some (today - 90), some (today + 14)⟩
  else if empIdx % 5 == 3 && courseIdx == 3 then
    ⟨.active, today - 30, none, some (today + 300)⟩
  else
    ⟨.completed, today - 365, some (today - 200),
      some (today + ((30 + (empIdx % 3) * 30 + courseIdx * 10 : Nat) : Int))⟩

/-- The list literal `[RenewalStatus.PENDING, RenewalStatus.APPROVED,
RenewalStatus.REJECTED]` of demo_seed.py line 194.  Python evaluates the
three attribute accesses left to right before the list exists, so the
missing member `APPROVED` raises `AttributeError`. -/
def renewalStatusChoices : Except PyError (List RenewalStatus) :=
  match renewalStatusMember "PENDING", renewalStatusMember "APPROVED",
      renewalStatusMember "REJECTED" with
  | some a, some b, some c => .ok [a, b, c]
  | none, _, _ => .error (.attributeError "RenewalStatus" "PENDING")
  | _, none, _ => .error (.attributeError "RenewalStatus" "APPROVED")
  | _, _, none => .error (.attributeError "RenewalStatus" "REJECTED")

/-- The employee-task status expression of demo_seed.py line 236:
`COMPLETED if i % 2 == 0 else (IN_PROGRESS if j % 2 == 0 else NOT_STARTED)`.
The branches are evaluated lazily, so the missing member `NOT_STARTED` only
raises when `i` and `j` are both odd. -/
def demoTaskStatus (i j : Nat) : Except PyError TaskStatus :=
  if i % 2 == 0 then .ok .completed
  else if j % 2 == 0 then .ok .in_progress
  else
    match taskStatusMember "NOT_STARTED" with
    | some s => .ok s
    | none => .error (.attributeError "TaskStatus" "NOT_STARTED")

/-- The keys and zero/empty values the seed's `summary` dict starts with. -/
def initialSummary : PyDict :=
  [("tenant", .vNat 0), ("departments", .vNat 0), ("users", .vNat 0),
   ("courses", .vNat 0), ("enrollments", .vNat 0), ("renewals", .vNat 0),
   ("tasks", .vNat 0), ("notifications", .vNat 0), ("kpis", .vNat 0),
   ("message", .vStr "")]

/-- The enrollment rows the seed constructs and flushes: one per
(employee, course index < min 4 |courses|) pair.  `courses[ci].id` is
`courseBase + ci` under the sequential id model. -/
def demoEnrollmentRows (today : Int) (tid : Nat) (employeeUsers : List UserRow)
    (numCourses courseBase enrBase : Nat) : List EnrollmentRow :=
  employeeUsers.enum.flatMap (fun p =>
    (List.range (min 4 numCourses)).map (fun ci =>
      let plan := demoEnrollmentPlan today p.1 ci
      { eid := enrBase + p.1 * 4 + ci
        tenantId := tid
        userId := p.2.uid
        courseId := courseBase + ci
        status := plan.status
        startDate := plan.startDate
        completionDate := plan.completionDate
        expiryDate := plan.expiryDate }))

/-- `run_demo_seed(db)` of `backend/app/seeds/demo_seed.py`, as a pure
function from the committed database to either a propagated Python
exception (the transaction is then never committed — the function has no
commit before its last line) or the returned summary dict together with the
newly committed database.

The early-exists branch returns `{"message": "Demo seed already exists.
Skipping.", **summary}`; the splat writes `summary`'s own `"message"` key
(the empty string) over the literal one.

On the fresh path the seed builds the tenant, departments, users, courses
and enrollments, then evaluates the renewal-status list literal, which
raises `AttributeError` (`RenewalStatus.APPROVED` does not exist), so the
remainder — renewals, progression tasks, employee tasks (whose status
expression would itself raise on the missing `TaskStatus.NOT_STARTED`),
notifications, KPI snapshots and the final commit — is dead code; it is
still modelled below so that the function is total. -/
def run_demo_seed (today : Int) (db : DB) : Except PyError (PyDict × DB) :=
  let summary := initialSummary
  if db.tenants.any (fun t => t.slug == some "democorp") then
    .ok (dictMergeStar [("message", .vStr "Demo seed already exists. Skipping.")] summary, db)
  else
    let tid := db.nextId
    let tenant : TenantRow := ⟨tid, "DemoCorp", some "democorp", true⟩
    let summary := dictSet summary "tenant" (.vNat 1)
    let deptBase := tid + 1
    let departments := demoDepartmentsData.enum.map (fun p =>
      ({ did := deptBase + p.1, tenantId := tid, name := p.2.2, code := p.2.1 } : DepartmentRow))
    let summary := dictSet summary "departments" (.vNat departments.length)
    let userBase := deptBase + demoDepartmentsData.length
    let users := demoUsersData.enum.map (fun p =>
      ({ uid := userBase + p.1, tenantId := tid, email := p.2.1, role := p.2.2.1,
         departmentId := if p.2.2.2 < departments.length then some (deptBase + p.2.2.2) else none } : UserRow))
    let summary := dictSet summary "users" (.vNat users.length)
    let courseBase := userBase + demoUsersData.length
    let courses := demoCoursesData.enum.map (fun p =>
      ({ cid := courseBase + p.1, tenantId := tid, name := p.2.1, category := p.2.2.1,
         validityDays := p.2.2.2.1, isMandatory := p.2.2.2.2.1,
         departmentId := if p.2.2.2.2.2 < departments.length then some (deptBase + p.2.2.2.2.2) else none } : CourseRow))
    let summary := dictSet summary "courses" (.vNat courses.length)
    let enrBase := courseBase + demoCoursesData.length
    let employeeUsers := users.filter (fun u => u.role == .employee)
    let enrollments := demoEnrollmentRows today tid employeeUsers courses.length courseBase enrBase
    let summary := dictSet summary "enrollments" (.vNat enrollments.length)
    match renewalStatusChoices with
    | .error e => .error e
    | .ok choices =>
      let renBase := enrBase + enrollments.length
      let renewals := (enrollments.take 15).enum.map (fun p =>
        let rstatus := choices.getD (p.1 % 3) .pending
        ({ rid := renBase + p.1, tenantId := tid, userId := p.2.userId,
           enrollmentId := p.2.eid, status := rstatus,
           approverId := if rstatus == .pending then none else some (userBase + 2),
           requestedDate := today - ((10 : Int) - (p.1 % 8 : Nat)),
           decidedDate := if rstatus == .pending then none
             else some (today - ((3 : Int) + (p.1 % 3 : Nat))),
           reason := "Course expiration renewal - " ++
             (if p.1 % 2 == 0 then "Mandatory compliance" else "Professional development") } : RenewalRow))
      let summary := dictSet summary "renewals" (.vNat renewals.length)
      let numProgressionTasks := 3 * 4
      let summary := dictSet summary "tasks" (.vNat numProgressionTasks)
      match (List.range (min 6 employeeUsers.length)).mapM (fun i =>
          (List.range (min 3 numProgressionTasks)).mapM (fun j => demoTaskStatus i j)) with
      | .error e => .error e
      | .ok _ =>
        let numNotifications := employeeUsers.length * 2
        let summary := dictSet summary "notifications" (.vNat numNotifications)
        let numKpis := employeeUsers.length * 4 + departments.length * 4
        let summary := dictSet summary "kpis" (.vNat numKpis)
        let summary := dictSet summary "message"
          (.vStr "Demo seed completed successfully for tenant \x27democorp\x27")
        .ok (summary,
          { nextId := renBase + renewals.length
            tenants := db.tenants ++ [tenant]
            departments := db.departments ++ departments
            users := db.users ++ users
            courses := db.courses ++ courses
            enrollments := db.enrollments ++ enrollments
            renewals := db.renewals ++ renewals
            workflowSteps := db.workflowSteps
            progressionTaskCount := db.progressionTaskCount + numProgressionTasks
            employeeTaskCount := db.employeeTaskCount + min 6 employeeUsers.length * 3
            notificationCount := db.notificationCount + numNotifications
            kpiCount := db.kpiCount + numKpis })

/-! ## EnrollmentTracker and RenewalWorkflowEngine

The backend exposes only placeholder routes for enrollments and renewals
(`main.py`: "not implemented yet"); no module in `src` implements
`evaluate`, `isRenewalCandidate`, `completeRenewal`, `openRequest`,
`decideStep` or the store lookups.  They are therefore modelled from the
spec (§4.1, §4.2, §4.3), faithful to its words. -/

/-- The enrollment fields the tracker sees: a cached status, start date,
optional completion date, optional expiry date. -/
structure EnrollmentE where
  status : EnrollmentStatus
  startDate : Int
  completionDate : Option Int
  expiryDate : Option Int
deriving DecidableEq, Repr

/-- Modelled from the spec: `EnrollmentTracker.evaluate` is missing from
`src`.  "pure function; returns `expired` if expiry date < now,
`completed` if completion date set and expiry in future, `active`
otherwise." -/
def evaluate (now : Int) (e : EnrollmentE) : EnrollmentStatus :=
  match e.expiryDate with
  | some x =>
    if x < now then .expired
    else if e.completionDate.isSome && now < x then .completed
    else .active
  | none => .active

/-- Modelled from the spec: `EnrollmentTracker.isRenewalCandidate` is missing
from `src`.  "true if expired, or completed with
`expiry_date − now <= warningWindowDays`." -/
def isRenewalCandidate (now : Int) (e : EnrollmentE) (warningWindowDays : Int) : Bool :=
  match evaluate now e with
  | .expired => true
  | .completed =>
    match e.expiryDate with
    | some x => x - now ≤ warningWindowDays
    | none => false
  | _ => false

/-- Modelled from the spec: `EnrollmentTracker.completeRenewal` is missing
from `src`.  "produces a new enrollment cycle: start = now,
completion = now, expiry = now + course.validity_days, status = active.
Does not mutate in place; returns the successor state." -/
def completeRenewal (now : Int) (validityDays : Int) (_e : EnrollmentE) : EnrollmentE :=
  ⟨.active, now, some now, some (now + validityDays)⟩

/-- The spec's approval-chain roles (§3 Worker). -/
inductive SpecRole
  | worker
  | lineSupervisor
  | departmentManager
  | trainingAdministrator
  | systemAdministrator
deriving DecidableEq, Repr

/-- A workflow step's decision (§3 WorkflowStep). -/
inductive StepDecision
  | waiting
  | approved
  | rejected
deriving DecidableEq, Repr

/-- The renewal-request state machine states of the spec (§4.2). -/
inductive ReqStatus
  | pending
  | inReview
  | approved
  | rejected
  | completed
deriving DecidableEq, Repr

/-- A request is open while pending or in review. -/
def ReqStatus.isOpen : ReqStatus → Bool
  | .pending => true
  | .inReview => true
  | _ => false

/-- Terminal checkpoints of the state machine. -/
def ReqStatus.isTerminal : ReqStatus → Bool
  | .approved => true
  | .rejected => true
  | .completed => true
  | _ => false

/-- A workflow step as the engine holds it. -/
structure WStep where
  stepOrder : Nat
  requiredRole : SpecRole
  decision : StepDecision
  actorId : Option Nat
  decidedAt : Option Int
  comment : Option String
deriving DecidableEq, Repr

/-- A renewal request together with its steps (the spec's `saveRequest`
commits request and steps atomically, so one record holds both). -/
structure RRequest where
  reqId : Nat
  tenant : Nat
  workerId : Nat
  enrollmentId : Nat
  status : ReqStatus
  requestedDate : Int
  decidedDate : Option Int
  reason : String
  steps : List WStep
deriving DecidableEq, Repr

/-- The engine's error kinds (§7). -/
inductive EngineError
  | ineligibleEnrollment
  | duplicateOpenRequest
  | stepOutOfOrder
  | roleMismatch
  | stepAlreadyDecided
  | requestAlreadyTerminal
  | notYetApproved
deriving DecidableEq, Repr

/-- The steps `openRequest` creates for an approval chain: step orders
`k, k+1, ...`, all `waiting`, one per chain entry. -/
def mkSteps : Nat → List SpecRole → List WStep
  | _, [] => []
  | k, r :: rs => ⟨k, r, .waiting, none, none, none⟩ :: mkSteps (k + 1) rs

/-- Modelled from the spec: `WorkflowStore.loadRequest(tenant, id)` is
missing from `src`; a tenant-scoped lookup. -/
def loadRequest (store : List RRequest) (tenant rid : Nat) : Option RRequest :=
  store.find? (fun r => r.tenant == tenant && r.reqId == rid)

/-- Modelled from the spec: `WorkflowStore.loadOpenRequestForEnrollment` is
missing from `src`; a tenant-scoped lookup of the open request of an
enrollment. -/
def loadOpenRequestForEnrollment (store : List RRequest) (tenant enrId : Nat) :
    Option RRequest :=
  store.find? (fun r => r.tenant == tenant && r.enrollmentId == enrId && r.status.isOpen)

/-- Modelled from the spec: `RenewalWorkflowEngine.openRequest` is missing
from `src`.  Fails with `DuplicateOpenRequest` if a tenant-scoped open
request already exists for the enrollment (checked first, as listed in
§4.2's failure order), with `IneligibleEnrollment` if the enrollment is not
a renewal candidate; otherwise creates the request with status `pending`
and one `waiting` step per chain entry, step orders `1..N`, and appends it
to the store in the same atomic commit. -/
def openRequest (store : List RRequest) (tenant workerId : Nat) (now : Int)
    (warningWindowDays : Int) (enrId : Nat) (enr : EnrollmentE) (reason : String)
    (chain : List SpecRole) (newId : Nat) : Except EngineError (RRequest × List RRequest) :=
  if store.any (fun r => r.tenant == tenant && r.enrollmentId == enrId && r.status.isOpen) then
    .error .duplicateOpenRequest
  else if !(isRenewalCandidate now enr warningWindowDays) then
    .error .ineligibleEnrollment
  else
    let req : RRequest := ⟨newId, tenant, workerId, enrId, .pending, now, none, reason, mkSteps 1 chain⟩
    .ok (req, store ++ [req])

/-- The lowest step order still `waiting` in a step list. -/
def lowestWaiting : List WStep → Option Nat
  | [] => none
  | s :: rest =>
    if s.decision = .waiting then
      match lowestWaiting rest with
      | none => some s.stepOrder
      | some m => some (min s.stepOrder m)
    else lowestWaiting rest

/-- The step list after recording a decision on the step with the given
order: that step's decision/actor/timestamp/comment are set, every other
step is untouched. -/
def updateSteps (steps : List WStep) (stepOrder actorId : Nat) (approve : Bool)
    (now : Int) (comment : Option String) : List WStep :=
  steps.map (fun s =>
    if s.stepOrder == stepOrder then
      { s with decision := if approve then .approved else .rejected,
               actorId := some actorId, decidedAt := some now, comment := comment }
    else s)

/-- Modelled from the spec: `RenewalWorkflowEngine.decideStep` is missing
from `src`.  Fails with `RequestAlreadyTerminal` on a terminal request;
with `StepAlreadyDecided` if the target step is no longer waiting (checked
before the order check so a double submission on an already-decided step
reports `StepAlreadyDecided`, as §8's race property requires); with
`StepOutOfOrder` unless the target's order is the lowest-numbered step
still waiting; with `RoleMismatch` unless the actor's role matches the
step's required role.  On success records decision/actor/timestamp/comment
on the step and moves the request to `rejected`, `approved` (when this was
the last waiting step) or `in_review`.  A missing step order is treated as
an ordering violation (the spec does not name this case). -/
def decideStep (req : RRequest) (stepOrder : Nat) (actorId : Nat) (actorRole : SpecRole)
    (approve : Bool) (now : Int) (comment : Option String) : Except EngineError RRequest :=
  if req.status.isTerminal then .error .requestAlreadyTerminal
  else
    match req.steps.find? (fun s => s.stepOrder == stepOrder) with
    | none => .error .stepOutOfOrder
    | some st =>
      if st.decision ≠ .waiting then .error .stepAlreadyDecided
      else if lowestWaiting req.steps ≠ some stepOrder then .error .stepOutOfOrder
      else if st.requiredRole ≠ actorRole then .error .roleMismatch
      else
        if !approve then
          .ok { req with status := .rejected,
                         steps := updateSteps req.steps stepOrder actorId approve now comment,
                         decidedDate := some now }
        else if (updateSteps req.steps stepOrder actorId approve now comment).all
            (fun s => s.decision == .approved) then
          .ok { req with status := .approved,
                         steps := updateSteps req.steps stepOrder actorId approve now comment,
                         decidedDate := some now }
        else
          .ok { req with status := .inReview,
                         steps := updateSteps req.steps stepOrder actorId approve now comment }

/-- At most one open request per (tenant, enrollment) in a store — the
tenant-scoped uniqueness invariant of §3. -/
def atMostOneOpen (store : List RRequest) : Prop :=
  store.Pairwise (fun a b =>
    a.tenant = b.tenant → a.enrollmentId = b.enrollmentId →
      ¬(a.status.isOpen = true ∧ b.status.isOpen = true))

/-! ## Concrete sample values for the witnesses -/

/-- A sample expired enrollment, used by the concrete witnesses. -/
def sampleExpiredEnr : EnrollmentE := ⟨.active, -400, some (-100), some (-1)⟩

/-- The approval chain of the spec's example scenario. -/
def sampleChain : List SpecRole := [.lineSupervisor, .departmentManager]

/-- The request `openRequest` creates in the witnesses. -/
def sampleRequest : RRequest := ⟨5, 0, 3, 9, .pending, 0, none, "renewal", mkSteps 1 sampleChain⟩

/-- A sample in-review request, used to witness the duplicate check. -/
def sampleInReview : RRequest := { sampleRequest with status := .inReview }

/-- The request `decideStep` produces when the line supervisor approves
step 1 of `sampleRequest`. -/
def sampleRequestAfter1 : RRequest :=
  ⟨5, 0, 3, 9, .inReview, 0, none, "renewal",
   [⟨1, .lineSupervisor, .approved, some 7, some 0, none⟩,
    ⟨2, .departmentManager, .waiting, none, none, none⟩]⟩

/-! ## Helper lemmas -/

/-- `renewalStatusChoices` evaluates to the `AttributeError` on `APPROVED`:
the `RenewalStatus` enum has no such member. -/
theorem renewalStatusChoices_eq :
    renewalStatusChoices = .error (.attributeError "RenewalStatus" "APPROVED") := rfl

/-- The step orders `mkSteps` hands out are `k, k+1, ..., k+N-1`. -/
theorem mkSteps_map_stepOrder (k : Nat) (chain : List SpecRole) :
    (mkSteps k chain).map (fun s => s.stepOrder) = List.range' k chain.length := by
  induction chain generalizing k with
  | nil => rfl
  | cons r rs ih =>
    show _ :: (mkSteps (k + 1) rs).map (fun s => s.stepOrder) = List.range' k (rs.length + 1)
    rw [ih]
    rfl

/-- Every step `mkSteps` creates is `waiting`. -/
theorem mkSteps_waiting (k : Nat) (chain : List SpecRole) :
    ∀ s ∈ mkSteps k chain, s.decision = .waiting := by
  induction chain generalizing k with
  | nil => intro s hs; cases hs
  | cons r rs ih =>
    intro s hs
    rcases List.mem_cons.mp hs with h | h
    · rw [h]
    · exact ih (k + 1) s h

/-- `mkSteps` makes one step per chain entry. -/
theorem mkSteps_length (k : Nat) (chain : List SpecRole) :
    (mkSteps k chain).length = chain.length := by
  induction chain generalizing k with
  | nil => rfl
  | cons r rs ih => simp [mkSteps, ih]

/-- A waiting step bounds `lowestWaiting` from above. -/
theorem lowestWaiting_le (steps : List WStep) (s : WStep) (hs : s ∈ steps)
    (hw : s.decision = .waiting) :
    ∃ m, lowestWaiting steps = some m ∧ m ≤ s.stepOrder := by
  induction steps with
  | nil => cases hs
  | cons a rest ih =>
    rcases List.mem_cons.mp hs with h | h
    · subst h
      unfold lowestWaiting
      rw [if_pos hw]
      cases hr : lowestWaiting rest with
      | none => exact ⟨s.stepOrder, rfl, le_refl _⟩
      | some m => exact ⟨min s.stepOrder m, rfl, min_le_left _ _⟩
    · obtain ⟨m, hm, hle⟩ := ih h
      unfold lowestWaiting
      by_cases ha : a.decision = .waiting
      · rw [if_pos ha, hm]
        exact ⟨min a.stepOrder m, rfl, le_trans (min_le_right _ _) hle⟩
      · rw [if_neg ha]
        exact ⟨m, hm, hle⟩

/-- Recording a decision never changes step orders. -/
theorem updateSteps_stepOrder (steps : List WStep) (k aid : Nat) (app : Bool)
    (now : Int) (cmt : Option String) :
    (updateSteps steps k aid app now cmt).map (fun s => s.stepOrder) =
      steps.map (fun s => s.stepOrder) := by
  unfold updateSteps
  rw [List.map_map]
  apply List.map_congr_left
  intro s _
  simp only [Function.comp]
  split <;> rfl

/-- What a successful `openRequest` tells us: no open request existed, the
returned request is the freshly built pending one, and the new store is the
old store with that request appended. -/
theorem openRequest_ok_elim {store : List RRequest} {tenant workerId : Nat} {now warn : Int}
    {enrId : Nat} {enr : EnrollmentE} {reason : String} {chain : List SpecRole} {newId : Nat}
    {r : RRequest} {store' : List RRequest}
    (h : openRequest store tenant workerId now warn enrId enr reason chain newId = .ok (r, store')) :
    store.any (fun q => q.tenant == tenant && q.enrollmentId == enrId && q.status.isOpen) = false ∧
    r = ⟨newId, tenant, workerId, enrId, .pending, now, none, reason, mkSteps 1 chain⟩ ∧
    store' = store ++ [r] := by
  unfold openRequest at h
  split at h
  · exact absurd h (by simp)
  · split at h
    · exact absurd h (by simp)
    · rename_i hc _
      simp only [Except.ok.injEq, Prod.mk.injEq] at h
      refine ⟨by simpa using hc, h.1.symm, ?_⟩
      rw [← h.2, h.1]

/-! ## Claims -/

/-- C1 (counterexample): the claim fixes the renewal status domain as the
five values pending, in_review, approved, rejected, completed; but the
code's `RenewalStatus` member `foreman_approved` is outside that set, and
the enum has no member `APPROVED` at all (which is why the demo seed's
attribute access raises). -/
theorem renewalStatus_spec_five_refuted :
    ¬(∀ s : RenewalStatus,
        s.value ∈ ["pending", "in_review", "approved", "rejected", "completed"]) ∧
    renewalStatusMember "APPROVED" = none := by
  constructor
  · intro h
    have hf := h .foreman_approved
    simp [RenewalStatus.value] at hf
  · rfl

/-- C1 (amended): every `RenewalStatus` value is one of exactly the five
values pending, foreman_approved, manager_approved, completed, rejected,
and the migration's server default for `renewal_requests.status` is in
that set. -/
theorem renewalStatus_values_exact :
    (∀ s : RenewalStatus,
        s.value ∈ ["pending", "foreman_approved", "manager_approved", "completed", "rejected"]) ∧
    renewalRequestStatusServerDefault ∈
      ["pending", "foreman_approved", "manager_approved", "completed", "rejected"] := by
  refine ⟨fun s => ?_, by decide⟩
  cases s <;> simp [RenewalStatus.value]

/-- C2: the spec-modelled `evaluate` is a pure function of
(now, completion_date, expiry_date) — it ignores the cached status and the
start date — and returns `expired` when the expiry date is before `now`,
`completed` when the completion date is set and the expiry is in the
future, and `active` otherwise. -/
theorem evaluate_pure_and_cases :
    (∀ now s₁ st₁ s₂ st₂ c x,
        evaluate now ⟨s₁, st₁, c, x⟩ = evaluate now ⟨s₂, st₂, c, x⟩) ∧
    (∀ now s st c x, x < now → evaluate now ⟨s, st, c, some x⟩ = .expired) ∧
    (∀ now s st c x, now < x → evaluate now ⟨s, st, some c, some x⟩ = .completed) ∧
    (∀ now s st c, evaluate now ⟨s, st, c, none⟩ = .active) ∧
    (∀ now s st c x, ¬x < now → (c = none ∨ ¬now < x) →
        evaluate now ⟨s, st, c, some x⟩ = .active) := by
  refine ⟨fun now s₁ st₁ s₂ st₂ c x => rfl, fun now s st c x hx => ?_,
    fun now s st c x hx => ?_, fun now s st c => rfl, fun now s st c x hx₁ hx₂ => ?_⟩
  · simp [evaluate, hx]
  · have hnx : ¬x < now := by omega
    simp [evaluate, hx, hnx]
  · rcases hx₂ with h | h
    · subst h
      simp [evaluate, hx₁]
    · simp [evaluate, hx₁, h]

/-- Witness for C2 at concrete inputs. -/
theorem evaluate_pure_and_cases_witness :
    evaluate 5 ⟨.active, 0, some 1, some 3⟩ = .expired ∧
    evaluate 0 ⟨.active, 0, some 7, some 3⟩ = .completed ∧
    evaluate 3 ⟨.active, 0, none, some 3⟩ = .active :=
  ⟨evaluate_pure_and_cases.2.1 5 .active 0 (some 1) 3 (by decide),
   evaluate_pure_and_cases.2.2.1 0 .active 0 7 3 (by decide),
   evaluate_pure_and_cases.2.2.2.2 3 .active 0 none 3 (by decide) (Or.inl rfl)⟩

/-- C5 (counterexample): the seed's very first demo enrollment (employee 0,
course 0, `today = 0`) is flushed with completion date `today − 50` and
expiry date `today − 10`, while course 0 ("Basic Safety Orientation") has
`validity_days = 365`; the expiry date is not the completion date plus the
validity period. -/
theorem demo_enrollment_violates_expiry_equation :
    (demoEnrollmentPlan 0 0 0).completionDate = some (-50) ∧
    (demoEnrollmentPlan 0 0 0).expiryDate = some (-10) ∧
    (demoCoursesData.get? 0).map (fun c => c.2.2.1) = some 365 ∧
    (-10 : Int) ≠ -50 + 365 := by
  refine ⟨rfl, rfl, rfl, by decide⟩

/-- C5 (amended): enrollments produced by the spec-modelled
`completeRenewal` do satisfy expiry = completion + validity, but the demo
seed constructs enrollments that violate the equation, so not every
enrollment-creating operation preserves it. -/
theorem expiry_equation_completeRenewal_only :
    (∀ now v e, (completeRenewal now v e).expiryDate =
        ((completeRenewal now v e).completionDate).map (fun c => c + v)) ∧
    (demoEnrollmentPlan 0 0 0).expiryDate ≠
      ((demoEnrollmentPlan 0 0 0).completionDate).map (fun c => c + 365) := by
  exact ⟨fun now v e => rfl, by decide⟩

/-- C7: every enrollment status the system produces is within
{active, completed, expired}: the seed's enrollment scenarios only use
`active` and `completed`, and the model's column default is `active`.
(The enum also declares a fourth value `pending`, but no code path
produces it.) -/
theorem enrollment_status_in_three :
    (∀ today empIdx courseIdx,
        (demoEnrollmentPlan today empIdx courseIdx).status ∈
          [EnrollmentStatus.active, .completed, .expired]) ∧
    enrollmentStatusDefault ∈ [EnrollmentStatus.active, .completed, .expired] := by
  refine ⟨fun t i j => ?_, by decide⟩
  unfold demoEnrollmentPlan
  split_ifs <;> simp

/-- C9: when a tenant with slug `democorp` exists, `run_demo_seed` returns
immediately and leaves the database unchanged, but the returned dict's
`message` is the empty string: the `**summary` splat writes `summary`'s
own (empty) `message` entry over the "Demo seed already exists. Skipping."
literal. -/
theorem run_demo_seed_existing_tenant (today : Int) (db : DB)
    (h : db.tenants.any (fun t => t.slug == some "democorp") = true) :
    run_demo_seed today db =
      .ok (dictMergeStar [("message", .vStr "Demo seed already exists. Skipping.")] initialSummary, db) ∧
    dictLookup
      (dictMergeStar [("message", .vStr "Demo seed already exists. Skipping.")] initialSummary)
      "message" = some (.vStr "") := by
  constructor
  · unfold run_demo_seed
    rw [if_pos h]
  · rfl

/-- Witness for C9: a one-tenant database whose tenant has slug democorp. -/
theorem run_demo_seed_existing_tenant_witness :
    run_demo_seed 0 ⟨1, [⟨0, "DemoCorp", some "democorp", true⟩], [], [], [], [], [], [], 0, 0, 0, 0⟩ =
      .ok (dictMergeStar [("message", .vStr "Demo seed already exists. Skipping.")] initialSummary,
        ⟨1, [⟨0, "DemoCorp", some "democorp", true⟩], [], [], [], [], [], [], 0, 0, 0, 0⟩) ∧
    dictLookup
      (dictMergeStar [("message", .vStr "Demo seed already exists. Skipping.")] initialSummary)
      "message" = some (.vStr "") :=
  run_demo_seed_existing_tenant 0 _ (by decide)

/-- C10: on a database with no `democorp` tenant, `run_demo_seed` does not
run to completion: after flushing tenant, departments, users, courses and
enrollments it evaluates the renewal-status list literal and raises
`AttributeError` — `RenewalStatus` has no member `APPROVED` — so no
summary is returned and no renewal request is created.  (Had that line
been reached, the employee-task loop would raise on the equally missing
`TaskStatus.NOT_STARTED`.) -/
theorem run_demo_seed_fresh_raises (today : Int) (db : DB)
    (h : db.tenants.any (fun t => t.slug == some "democorp") = false) :
    run_demo_seed today db = .error (.attributeError "RenewalStatus" "APPROVED") := by
  unfold run_demo_seed
  rw [if_neg]
  · rfl
  · simp [h]

/-- Witness for C10: the empty database. -/
theorem run_demo_seed_fresh_raises_witness :
    run_demo_seed 0 ⟨0, [], [], [], [], [], [], [], 0, 0, 0, 0⟩ =
      .error (.attributeError "RenewalStatus" "APPROVED") :=
  run_demo_seed_fresh_raises 0 _ rfl

/-- C3: the spec-modelled `openRequest` fails with `DuplicateOpenRequest`
whenever the store already holds an open (pending or in-review) request of
the same tenant for the enrollment, and creates nothing; in particular a
second `openRequest` immediately after a successful one fails that way,
and a successful `openRequest` preserves the at-most-one-open-request
invariant. -/
theorem openRequest_duplicate_open :
    (∀ store tenant workerId now warn enrId enr reason chain newId,
        (∃ r ∈ store, r.tenant = tenant ∧ r.enrollmentId = enrId ∧ r.status.isOpen = true) →
        openRequest store tenant workerId now warn enrId enr reason chain newId =
          .error .duplicateOpenRequest) ∧
    (∀ store tenant workerId now warn enrId enr reason chain newId r store'
        workerId₂ now₂ warn₂ enr₂ reason₂ chain₂ newId₂,
        openRequest store tenant workerId now warn enrId enr reason chain newId = .ok (r, store') →
        openRequest store' tenant workerId₂ now₂ warn₂ enrId enr₂ reason₂ chain₂ newId₂ =
          .error .duplicateOpenRequest) ∧
    (∀ store tenant workerId now warn enrId enr reason chain newId r store',
        atMostOneOpen store →
        openRequest store tenant workerId now warn enrId enr reason chain newId = .ok (r, store') →
        atMostOneOpen store') := by
  have hdup : ∀ (store : List RRequest) (tenant workerId : Nat) (now warn : Int)
      (enrId : Nat) (enr : EnrollmentE) (reason : String) (chain : List SpecRole) (newId : Nat),
      (∃ r ∈ store, r.tenant = tenant ∧ r.enrollmentId = enrId ∧ r.status.isOpen = true) →
      openRequest store tenant workerId now warn enrId enr reason chain newId =
        .error .duplicateOpenRequest := by
    intro store tenant workerId now warn enrId enr reason chain newId hex
    have hany : store.any
        (fun r => r.tenant == tenant && r.enrollmentId == enrId && r.status.isOpen) = true := by
      rw [List.any_eq_true]
      obtain ⟨r, hr, h1, h2, h3⟩ := hex
      exact ⟨r, hr, by simp [h1, h2, h3]⟩
    unfold openRequest
    rw [if_pos hany]
  refine ⟨hdup, ?_, ?_⟩
  · intro store tenant workerId now warn enrId enr reason chain newId r store'
      workerId₂ now₂ warn₂ enr₂ reason₂ chain₂ newId₂ h
    obtain ⟨-, hr, hstore⟩ := openRequest_ok_elim h
    apply hdup
    exact ⟨r, by simp [hstore], by rw [hr], by rw [hr], by rw [hr]; rfl⟩
  · intro store tenant workerId now warn enrId enr reason chain newId r store' hinv h
    obtain ⟨hany, hr, hstore⟩ := openRequest_ok_elim h
    rw [hstore]
    unfold atMostOneOpen
    rw [List.pairwise_append]
    refine ⟨hinv, List.pairwise_singleton _ _, ?_⟩
    intro a ha b hb
    have hbr : b = r := by simpa using hb
    subst hbr
    rw [hr]
    intro ht he hopen
    rw [List.any_eq_false] at hany
    apply hany a ha
    simp only [Bool.and_eq_true, beq_iff_eq]
    exact ⟨⟨by simpa using ht, by simpa using he⟩, hopen.1⟩

/-- Witness for C3: opening against an empty store succeeds and yields
`sampleRequest`; a second open on the same enrollment fails with
`DuplicateOpenRequest` (also when the existing request is in review), and
the one-element store keeps the invariant. -/
theorem openRequest_duplicate_open_witness :
    openRequest [sampleInReview] 0 7 2 30 9 sampleExpiredEnr "x" sampleChain 8 =
      .error .duplicateOpenRequest ∧
    openRequest [sampleRequest] 0 4 1 30 9 sampleExpiredEnr "again" sampleChain 6 =
      .error .duplicateOpenRequest ∧
    atMostOneOpen [sampleRequest] :=
  ⟨openRequest_duplicate_open.1 [sampleInReview] 0 7 2 30 9 sampleExpiredEnr "x" sampleChain 8
      ⟨sampleInReview, by simp, rfl, rfl, rfl⟩,
   openRequest_duplicate_open.2.1 [] 0 3 0 30 9 sampleExpiredEnr "renewal" sampleChain 5
      sampleRequest [sampleRequest] 4 1 30 sampleExpiredEnr "again" sampleChain 6 rfl,
   openRequest_duplicate_open.2.2 [] 0 3 0 30 9 sampleExpiredEnr "renewal" sampleChain 5
      sampleRequest [sampleRequest] List.Pairwise.nil rfl⟩

/-- C4: with the spec-modelled engine, `decideStep` on a step `k > 1` whose
predecessor `k−1` is still waiting fails with `StepOutOfOrder` (for every
non-terminal request), and `openRequest` creates the steps of a chain of
length `N` as the contiguous, all-waiting sequence `1..N`. -/
theorem decideStep_strict_order :
    (∀ (req : RRequest) (k aid : Nat) (arole : SpecRole) (app : Bool) (now : Int)
        (cmt : Option String) (st st' : WStep),
        req.status.isTerminal = false →
        req.steps.find? (fun s => s.stepOrder == k) = some st →
        st.decision = .waiting →
        st' ∈ req.steps → st'.stepOrder = k - 1 → st'.decision = .waiting →
        1 < k →
        decideStep req k aid arole app now cmt = .error .stepOutOfOrder) ∧
    (∀ store tenant workerId now warn enrId enr reason chain newId r store',
        openRequest store tenant workerId now warn enrId enr reason chain newId = .ok (r, store') →
        r.steps.map (fun s => s.stepOrder) = List.range' 1 chain.length ∧
        ∀ s ∈ r.steps, s.decision = .waiting) := by
  constructor
  · intro req k aid arole app now cmt st st' hterm hfind hw hmem horder hw' hk
    unfold decideStep
    rw [if_neg (by simp [hterm])]
    split
    · rfl
    · rename_i st₁ heq
      rw [hfind] at heq
      injection heq with heq
      subst heq
      rw [if_neg (by simp [hw])]
      obtain ⟨m, hm, hle⟩ := lowestWaiting_le req.steps st' hmem hw'
      rw [horder] at hle
      rw [if_pos]
      rw [hm]
      simp only [ne_eq, Option.some.injEq]
      omega
  · intro store tenant workerId now warn enrId enr reason chain newId r store' h
    obtain ⟨-, hr, -⟩ := openRequest_ok_elim h
    rw [hr]
    exact ⟨mkSteps_map_stepOrder 1 chain, mkSteps_waiting 1 chain⟩

/-- Witness for C4: in the two-step sample request, deciding step 2 while
step 1 waits fails with `StepOutOfOrder`, and the created steps are 1..2. -/
theorem decideStep_strict_order_witness :
    decideStep sampleRequest 2 7 .departmentManager true 0 none = .error .stepOutOfOrder ∧
    sampleRequest.steps.map (fun s => s.stepOrder) = List.range' 1 sampleChain.length :=
  ⟨decideStep_strict_order.1 sampleRequest 2 7 .departmentManager true 0 none
      ⟨2, .departmentManager, .waiting, none, none, none⟩
      ⟨1, .lineSupervisor, .waiting, none, none, none⟩
      rfl rfl rfl (by decide) rfl rfl (by decide),
   (decideStep_strict_order.2 [] 0 3 0 30 9 sampleExpiredEnr "renewal" sampleChain 5
      sampleRequest [sampleRequest] rfl).1⟩

/-- C6: with the spec-modelled engine, a request is committed together with
its steps in one record — one `waiting` step per approval-chain entry with
orders 1..N — `decideStep` never adds or removes a step, and the backend's
only renewal-creating code, `run_demo_seed`, commits neither renewal
requests nor workflow steps (it raises before constructing any), so no
renewal request ever exists without its steps. -/
theorem steps_created_atomically :
    (∀ store tenant workerId now warn enrId enr reason chain newId r store',
        openRequest store tenant workerId now warn enrId enr reason chain newId = .ok (r, store') →
        store' = store ++ [r] ∧
        r.steps.length = chain.length ∧
        r.steps.map (fun s => s.stepOrder) = List.range' 1 chain.length ∧
        ∀ s ∈ r.steps, s.decision = .waiting) ∧
    (∀ (req : RRequest) (k aid : Nat) (arole : SpecRole) (app : Bool) (now : Int)
        (cmt : Option String) (req' : RRequest),
        decideStep req k aid arole app now cmt = .ok req' →
        req'.steps.map (fun s => s.stepOrder) = req.steps.map (fun s => s.stepOrder)) ∧
    (∀ (today : Int) (db : DB) (p : PyDict × DB),
        run_demo_seed today db = .ok p →
        p.2.renewals = db.renewals ∧ p.2.workflowSteps = db.workflowSteps) := by
  refine ⟨?_, ?_, ?_⟩
  · intro store tenant workerId now warn enrId enr reason chain newId r store' h
    obtain ⟨-, hr, hstore⟩ := openRequest_ok_elim h
    refine ⟨hstore, ?_, ?_, ?_⟩
    · rw [hr]
      exact mkSteps_length 1 chain
    · rw [hr]
      exact mkSteps_map_stepOrder 1 chain
    · rw [hr]
      exact mkSteps_waiting 1 chain
  · intro req k aid arole app now cmt req' h
    unfold decideStep at h
    split at h
    · exact absurd h (by simp)
    · split at h
      · exact absurd h (by simp)
      · split at h
        · exact absurd h (by simp)
        · split at h
          · exact absurd h (by simp)
          · split at h
            · exact absurd h (by simp)
            · split at h
              · simp only [Except.ok.injEq] at h
                rw [← h]
                exact updateSteps_stepOrder req.steps _ _ _ _ _
              · split at h
                · simp only [Except.ok.injEq] at h
                  rw [← h]
                  exact updateSteps_stepOrder req.steps _ _ _ _ _
                · simp only [Except.ok.injEq] at h
                  rw [← h]
                  exact updateSteps_stepOrder req.steps _ _ _ _ _
  · intro today db p h
    unfold run_demo_seed at h
    split at h
    · simp only [Except.ok.injEq] at h
      rw [← h]
      exact ⟨rfl, rfl⟩
    · exact Except.noConfusion h

/-- Witness for C6 at concrete inputs. -/
theorem steps_created_atomically_witness :
    ([sampleRequest] : List RRequest) = [] ++ [sampleRequest] ∧
    sampleRequest.steps.length = sampleChain.length ∧
    sampleRequestAfter1.steps.map (fun s => s.stepOrder) =
      sampleRequest.steps.map (fun s => s.stepOrder) :=
  ⟨(steps_created_atomically.1 [] 0 3 0 30 9 sampleExpiredEnr "renewal" sampleChain 5
      sampleRequest [sampleRequest] rfl).1,
   (steps_created_atomically.1 [] 0 3 0 30 9 sampleExpiredEnr "renewal" sampleChain 5
      sampleRequest [sampleRequest] rfl).2.1,
   steps_created_atomically.2.1 sampleRequest 1 7 .lineSupervisor true 0 none
      sampleRequestAfter1 rfl⟩

/-- C8: every engine-entity row the backend writes carries one explicit
tenant id — the seed's enrollment rows all carry the id of the seeded
tenant — and the spec-modelled store reads are filtered by the explicit
tenant argument, so no lookup returns a row of another tenant; a request
`openRequest` creates carries the explicit tenant it was given. -/
theorem tenant_scoped_rows :
    (∀ today tid employeeUsers ncourses courseBase enrBase row,
        row ∈ demoEnrollmentRows today tid employeeUsers ncourses courseBase enrBase →
        row.tenantId = tid) ∧
    (∀ store tenant rid r, loadRequest store tenant rid = some r → r.tenant = tenant) ∧
    (∀ store tenant enrId r, loadOpenRequestForEnrollment store tenant enrId = some r →
        r.tenant = tenant ∧ r.enrollmentId = enrId ∧ r.status.isOpen = true) ∧
    (∀ store tenant workerId now warn enrId enr reason chain newId r store',
        openRequest store tenant workerId now warn enrId enr reason chain newId = .ok (r, store') →
        r.tenant = tenant) := by
  refine ⟨?_, ?_, ?_, ?_⟩
  · intro today tid employeeUsers ncourses courseBase enrBase row hrow
    unfold demoEnrollmentRows at hrow
    simp only [List.mem_flatMap, List.mem_map] at hrow
    obtain ⟨p, -, ci, -, heq⟩ := hrow
    rw [← heq]
  · intro store tenant rid r h
    have hp := List.find?_some h
    simp only [Bool.and_eq_true, beq_iff_eq] at hp
    exact hp.1
  · intro store tenant enrId r h
    have hp := List.find?_some h
    simp only [Bool.and_eq_true, beq_iff_eq] at hp
    exact ⟨hp.1.1, hp.1.2, hp.2⟩
  · intro store tenant workerId now warn enrId enr reason chain newId r store' h
    obtain ⟨-, hr, -⟩ := openRequest_ok_elim h
    rw [hr]

/-- Witness for C8 at concrete inputs: a one-employee seed enrollment row,
the sample store lookups, and the sample `openRequest`. -/
theorem tenant_scoped_rows_witness :
    (⟨26, 7, 25, 19, .completed, -400, some (-50), some (-10)⟩ : EnrollmentRow).tenantId = 7 ∧
    sampleRequest.tenant = 0 ∧
    (sampleRequest.tenant = 0 ∧ sampleRequest.enrollmentId = 9 ∧
      sampleRequest.status.isOpen = true) :=
  ⟨tenant_scoped_rows.1 0 7 [⟨25, 7, "e", .employee, none⟩] 7 19 26 _ (by decide),
   tenant_scoped_rows.2.1 [sampleRequest] 0 5 sampleRequest (by decide),
   tenant_scoped_rows.2.2.1 [sampleRequest] 0 9 sampleRequest (by decide)⟩

end TrainFlow
